import Mathlib

/-!
Verification of the monitoring core of `sensor_mmWave.py` (radar vital-sign
monitor).  The state machine, signal parsing and monitor-loop body of
`vital_sign_monitoring` are embedded shallowly: timestamps are integers,
text lines are lists of characters, the Python local variable
`current_time` (assigned only inside the recognized-marker branch) is an
`Option Int` in the loop state, and the loop body returns `Except` so that
a read of the unassigned local is an explicit error value.
-/

namespace Radar

/-- `NO_MOTION_THRESHOLD = 300` (line 26): seconds without any motion before
the critical tier. -/
def NO_MOTION_THRESHOLD : Int := 300

/-- `INITIAL_ALARM_THRESHOLD = 60` (line 27): seconds without motion before
the initial tier. -/
def INITIAL_ALARM_THRESHOLD : Int := 60

/-- The critical-alert cooldown, the literal `600` on line 149. -/
def CRITICAL_COOLDOWN : Int := 600

/-- Alert tiers: the initial alert (lines 134-144) and the critical alert
(lines 146-160). -/
inductive Tier where
  | initial
  | critical
deriving DecidableEq, Repr

/-- An emitted alert: tier, the `int(time_since_movement)` reported in the
message, and the time at which it fired. -/
structure AlertEvent where
  tier : Tier
  elapsed_seconds : Int
  timestamp : Int
deriving DecidableEq, Repr

/-- The mutable state of `vital_sign_monitoring` (lines 83-88). -/
structure MonitoringSession where
  last_movement_time : Int
  last_presence_time : Int
  presence_detected : Bool
  initial_alarm_sent : Bool
  critical_alarm_sent : Bool
  last_critical_alert_time : Int
deriving DecidableEq, Repr

/-- The initial state (lines 83-88): both timestamps are the start time,
presence and both alarm flags are false, `last_critical_alert_time = 0`. -/
def initSession (t0 : Int) : MonitoringSession :=
  { last_movement_time := t0
    last_presence_time := t0
    presence_detected := false
    initial_alarm_sent := false
    critical_alarm_sent := false
    last_critical_alert_time := 0 }

/-- Processing one recognized presence signal (lines 102-126).
`present = true` is the `status == "1"` branch: set `presence_detected`,
update `last_presence_time` and `last_movement_time` to `now`, and clear
both alarm flags if either was set.  `present = false` is the
`status == "0"` branch: if presence was detected, clear it and both alarm
flags. -/
def processSignal (s : MonitoringSession) (present : Bool) (now : Int) :
    MonitoringSession :=
  if present then
    let s1 := { s with presence_detected := true
                       last_presence_time := now
                       last_movement_time := now }
    if s1.initial_alarm_sent = true ∨ s1.critical_alarm_sent = true then
      { s1 with initial_alarm_sent := false, critical_alarm_sent := false }
    else s1
  else
    if s.presence_detected = true then
      { s with presence_detected := false
               initial_alarm_sent := false
               critical_alarm_sent := false }
    else s

/-- The escalation (tick) evaluation (lines 128-160), run with
`current_time = now`: compute `time_since_movement`, and if presence is
detected evaluate the initial tier (fires when elapsed exceeds
`INITIAL_ALARM_THRESHOLD` and the initial flag is unset) and then the
critical tier (fires when elapsed exceeds `NO_MOTION_THRESHOLD` and either
the critical flag is unset or the cooldown since `last_critical_alert_time`
has elapsed). -/
def tick (s : MonitoringSession) (now : Int) :
    MonitoringSession × List AlertEvent :=
  let elapsed := now - s.last_movement_time
  if s.presence_detected = true then
    let p1 :=
      if elapsed > INITIAL_ALARM_THRESHOLD ∧ s.initial_alarm_sent = false then
        ({ s with initial_alarm_sent := true },
         [{ tier := Tier.initial, elapsed_seconds := elapsed, timestamp := now }])
      else (s, [])
    let s1 := p1.1
    let p2 :=
      if elapsed > NO_MOTION_THRESHOLD ∧
          (s1.critical_alarm_sent = false ∨
           now - s1.last_critical_alert_time > CRITICAL_COOLDOWN) then
        ({ s1 with critical_alarm_sent := true, last_critical_alert_time := now },
         [{ tier := Tier.critical, elapsed_seconds := elapsed, timestamp := now }])
      else (s1, [])
    (p2.1, p1.2 ++ p2.2)
  else (s, [])

/-- One state-machine event: a recognized presence signal processed at time
`now` (always followed in the source by the tick evaluation at the same
`current_time`), or a tick evaluation alone at time `now` (in the source
this is the evaluation at lines 128-160 reached without a recognized
signal). -/
inductive Event where
  | signal (present : Bool) (now : Int)
  | tick (now : Int)
deriving DecidableEq, Repr

/-- One state-machine step per event. -/
def step (s : MonitoringSession) (e : Event) :
    MonitoringSession × List AlertEvent :=
  match e with
  | .signal b now => tick (processSignal s b now) now
  | .tick now => tick s now

/-- Run a sequence of events, collecting all emitted alerts in order. -/
def runS (s : MonitoringSession) (evs : List Event) :
    MonitoringSession × List AlertEvent :=
  match evs with
  | [] => (s, [])
  | e :: rest =>
    let p := step s e
    let q := runS p.1 rest
    (q.1, p.2 ++ q.2)

/-! ## The parser stage -/

/-- The recognized marker prefix `"SJYBSS,"` (line 98). -/
def marker : List Char := "SJYBSS,".data

/-- Python's `str.split(",")`: split on every comma, keeping empty fields,
so `"".split(",") = [""]` and `"a,,b".split(",") = ["a","","b"]`. -/
def splitOnComma : List Char → List (List Char)
  | [] => [[]]
  | c :: cs =>
    if c = ',' then [] :: splitOnComma cs
    else
      match splitOnComma cs with
      | [] => [[c]]
      | f :: rest => (c :: f) :: rest

/-- The parser stage of the loop body (lines 97-99, 102, 119): a stripped
line yields `some true` if it starts with the marker and its second
comma-separated field is `"1"`, `some false` if that field is `"0"`, and
`none` otherwise (line ignored). -/
def parseLine (data : List Char) : Option Bool :=
  if marker.isPrefixOf data then
    let status := (splitOnComma data).getD 1 []
    if status = ['1'] then some true
    else if status = ['0'] then some false
    else none
  else none

/-- Modelled from the spec: the parser contract as the spec words it
(sections 4.1 and 6) — the recognized form is exactly `"<MARKER>,<status>"`
with `<status> ∈ {"0","1"}` and any other content is ignored.  Stated for
comparison with `parseLine`, the parser the source implements. -/
def specParse (data : List Char) : Option Bool :=
  if data = "SJYBSS,1".data then some true
  else if data = "SJYBSS,0".data then some false
  else none

/-! ## The monitor-loop body -/

/-- A Python runtime error reachable in the loop body: reading the local
`current_time` before its first assignment. -/
inductive PyError where
  | unboundLocal
deriving DecidableEq, Repr

/-- The loop-local state: the session fields plus the Python local
`current_time`, which is assigned only inside the recognized-marker branch
(line 100) and is unassigned (`none`) before the first recognized line. -/
structure LoopState where
  session : MonitoringSession
  current_time : Option Int
deriving DecidableEq, Repr

/-- What one loop iteration observes: no pending data
(`ser.in_waiting == 0`), or one stripped line read at wall-clock time
`now`. -/
inductive LoopInput where
  | noData
  | line (data : List Char) (now : Int)
deriving DecidableEq, Repr

/-- One iteration of the `while True` loop body (lines 93-162).  With no
pending data the body does nothing (the tick evaluation at lines 128-160 is
inside `if ser.in_waiting > 0`).  With a line read: if it starts with the
marker, `current_time` is assigned `now`, the signal (if its status field
is `"1"` or `"0"`) is processed, and the tick evaluation runs at `now`;
otherwise the signal branch is skipped and the tick evaluation runs at the
*previous* value of `current_time` — an `UnboundLocalError` if no
recognized line has arrived yet. -/
def loopBody (st : LoopState) (inp : LoopInput) :
    Except PyError (LoopState × List AlertEvent) :=
  match inp with
  | .noData => .ok (st, [])
  | .line data now =>
    if marker.isPrefixOf data then
      let status := (splitOnComma data).getD 1 []
      let s1 :=
        if status = ['1'] then processSignal st.session true now
        else if status = ['0'] then processSignal st.session false now
        else st.session
      let p := tick s1 now
      .ok ({ session := p.1, current_time := some now }, p.2)
    else
      match st.current_time with
      | none => .error .unboundLocal
      | some ct =>
        let p := tick st.session ct
        .ok ({ st with session := p.1 }, p.2)

/-- Run the loop body over a sequence of inputs, stopping at the first
error. -/
def runLoop (st : LoopState) (inps : List LoopInput) :
    Except PyError (LoopState × List AlertEvent) :=
  match inps with
  | [] => .ok (st, [])
  | i :: rest =>
    match loopBody st i with
    | .error e => .error e
    | .ok (st1, as1) =>
      match runLoop st1 rest with
      | .error e => .error e
      | .ok (st2, as2) => .ok (st2, as1 ++ as2)

/-! ## Derived observers used to state the claims -/

/-- Whether an alert of tier `tr` occurs in an emitted alert list. -/
def hasTier (tr : Tier) : List AlertEvent → Bool
  | [] => false
  | a :: rest => if a.tier = tr then true else hasTier tr rest

/-- The clock value carried by an event. -/
def eventTime : Event → Int
  | .signal _ now => now
  | .tick now => now

/-- The timestamp of the most recent presence=1 signal in an event list,
if any. -/
def lastMovementUpdate : List Event → Option Int
  | [] => none
  | .signal true t :: rest => some ((lastMovementUpdate rest).getD t)
  | .signal false _ :: rest => lastMovementUpdate rest
  | .tick _ :: rest => lastMovementUpdate rest

/-- The event times are non-decreasing, starting from `t`. -/
def chronoFrom (t : Int) : List Event → Bool
  | [] => true
  | e :: rest => decide (t ≤ eventTime e) && chronoFrom (eventTime e) rest

/-- The time of the last event, or `t` if there is none. -/
def lastTime (t : Int) : List Event → Int
  | [] => t
  | e :: rest => lastTime (eventTime e) rest

/-- No presence=1 signal occurs in the event list. -/
def noPresence1 : List Event → Bool
  | [] => true
  | .signal true _ :: _ => false
  | _ :: rest => noPresence1 rest

/-- A concrete session one minute into a no-movement episode: presence
detected at time 0, no movement since, no alarm sent yet. -/
def sC1 : MonitoringSession :=
  { last_movement_time := 0
    last_presence_time := 0
    presence_detected := true
    initial_alarm_sent := false
    critical_alarm_sent := false
    last_critical_alert_time := 0 }

/-- A concrete session in which the initial alarm has already been sent. -/
def sAlarmed : MonitoringSession := { sC1 with initial_alarm_sent := true }

/-- A concrete session right after a critical alert fired at time 301
(the spec's Scenario C). -/
def sCrit : MonitoringSession :=
  { sC1 with initial_alarm_sent := true
             critical_alarm_sent := true
             last_critical_alert_time := 301 }

/-! ## Basic facts about the tick evaluation -/

/-- `splitOnComma` always returns at least one field (so indexing field 1
of a line that starts with the marker, which contains a comma, cannot
fail). -/
theorem splitOnComma_ne_nil (l : List Char) : splitOnComma l ≠ [] := by
  induction l with
  | nil => simp [splitOnComma]
  | cons c cs ih =>
    simp only [splitOnComma]
    split
    · simp
    · cases h : splitOnComma cs with
      | nil => simp
      | cons f rest => simp

/-- The tick evaluation, written out as its four-way decision tree. -/
theorem tick_eq (s : MonitoringSession) (now : Int) :
    tick s now =
      if s.presence_detected = true then
        if now - s.last_movement_time > INITIAL_ALARM_THRESHOLD ∧
            s.initial_alarm_sent = false then
          if now - s.last_movement_time > NO_MOTION_THRESHOLD ∧
              (s.critical_alarm_sent = false ∨
               now - s.last_critical_alert_time > CRITICAL_COOLDOWN) then
            ({ s with initial_alarm_sent := true, critical_alarm_sent := true,
                      last_critical_alert_time := now },
             [{ tier := Tier.initial, elapsed_seconds := now - s.last_movement_time,
                timestamp := now },
              { tier := Tier.critical, elapsed_seconds := now - s.last_movement_time,
                timestamp := now }])
          else
            ({ s with initial_alarm_sent := true },
             [{ tier := Tier.initial, elapsed_seconds := now - s.last_movement_time,
                timestamp := now }])
        else
          if now - s.last_movement_time > NO_MOTION_THRESHOLD ∧
              (s.critical_alarm_sent = false ∨
               now - s.last_critical_alert_time > CRITICAL_COOLDOWN) then
            ({ s with critical_alarm_sent := true, last_critical_alert_time := now },
             [{ tier := Tier.critical, elapsed_seconds := now - s.last_movement_time,
                timestamp := now }])
          else (s, [])
      else (s, []) := by
  simp only [tick]
  split_ifs <;> simp_all

/-- The tick evaluation never changes `presence_detected`,
`last_movement_time` or `last_presence_time`. -/
theorem tick_preserves (s : MonitoringSession) (now : Int) :
    (tick s now).1.presence_detected = s.presence_detected ∧
    (tick s now).1.last_movement_time = s.last_movement_time ∧
    (tick s now).1.last_presence_time = s.last_presence_time := by
  rw [tick_eq]
  split_ifs <;> simp

/-- `hasTier` distributes over list append. -/
theorem hasTier_append (tr : Tier) (l1 l2 : List AlertEvent) :
    hasTier tr (l1 ++ l2) = (hasTier tr l1 || hasTier tr l2) := by
  induction l1 with
  | nil => simp [hasTier]
  | cons a rest ih =>
    simp only [List.cons_append, hasTier, ih]
    split_ifs <;> simp [ih]

/-- Processing a presence=1 signal: both timestamps become `now`, presence
is set, and both alarm flags end up false (they are cleared when either was
set, and otherwise were already false). -/
theorem processSignal_true_eq (s : MonitoringSession) (now : Int) :
    processSignal s true now =
      { s with presence_detected := true
               last_presence_time := now
               last_movement_time := now
               initial_alarm_sent := false
               critical_alarm_sent := false } := by
  simp only [processSignal]
  split_ifs <;> simp_all

/-- Processing a presence=0 signal: if presence was detected, presence and
both alarm flags are cleared; otherwise nothing changes. -/
theorem processSignal_false_eq (s : MonitoringSession) (now : Int) :
    processSignal s false now =
      if s.presence_detected = true then
        { s with presence_detected := false
                 initial_alarm_sent := false
                 critical_alarm_sent := false }
      else s := by
  simp [processSignal]

/-! ## C5 — movement cancels escalation -/

/-- C5: if either alarm flag is set, processing a presence=1 signal (the
signal branch followed by the tick at the same `current_time`) leaves both
alarm flags false. -/
theorem movement_clears_alarm_flags (s : MonitoringSession) (now : Int)
    (_h : s.initial_alarm_sent = true ∨ s.critical_alarm_sent = true) :
    (step s (Event.signal true now)).1.initial_alarm_sent = false ∧
    (step s (Event.signal true now)).1.critical_alarm_sent = false := by
  simp only [step, processSignal_true_eq, tick_eq]
  norm_num [INITIAL_ALARM_THRESHOLD, NO_MOTION_THRESHOLD]

/-- Witness for C5 at a concrete alarmed session and time 5. -/
theorem movement_clears_alarm_flags_witness :
    (sAlarmed.initial_alarm_sent = true ∨ sAlarmed.critical_alarm_sent = true) ∧
    (step sAlarmed (Event.signal true 5)).1.initial_alarm_sent = false ∧
    (step sAlarmed (Event.signal true 5)).1.critical_alarm_sent = false :=
  ⟨Or.inl rfl, movement_clears_alarm_flags sAlarmed 5 (Or.inl rfl)⟩

/-! ## C9 — both tiers fire in the same tick, Initial first -/

/-- C9: at a tick with presence detected, elapsed above both thresholds,
and neither alarm flag set, the emitted alert list is exactly the Initial
alert followed by the Critical alert. -/
theorem both_tiers_fire_same_tick (s : MonitoringSession) (now : Int)
    (hp : s.presence_detected = true)
    (h60 : now - s.last_movement_time > INITIAL_ALARM_THRESHOLD)
    (h300 : now - s.last_movement_time > NO_MOTION_THRESHOLD)
    (hi : s.initial_alarm_sent = false) (hc : s.critical_alarm_sent = false) :
    (tick s now).2 =
      [{ tier := Tier.initial, elapsed_seconds := now - s.last_movement_time,
         timestamp := now },
       { tier := Tier.critical, elapsed_seconds := now - s.last_movement_time,
         timestamp := now }] := by
  rw [tick_eq]
  simp [hp, h60, h300, hi, hc]

/-- Witness for C9: both thresholds crossed at `now = 400` from a fresh
episode. -/
theorem both_tiers_fire_same_tick_witness :
    (sC1.presence_detected = true ∧
     (400 : Int) - sC1.last_movement_time > INITIAL_ALARM_THRESHOLD ∧
     (400 : Int) - sC1.last_movement_time > NO_MOTION_THRESHOLD ∧
     sC1.initial_alarm_sent = false ∧ sC1.critical_alarm_sent = false) ∧
    (tick sC1 400).2 =
      [{ tier := Tier.initial, elapsed_seconds := (400 : Int) - sC1.last_movement_time,
         timestamp := 400 },
       { tier := Tier.critical, elapsed_seconds := (400 : Int) - sC1.last_movement_time,
         timestamp := 400 }] :=
  ⟨⟨rfl, by decide, by decide, rfl, rfl⟩,
   both_tiers_fire_same_tick sC1 400 rfl (by decide) (by decide) rfl rfl⟩

/-! ## C1 — is the tick evaluation reached on frameless iterations? -/

/-- C1 counterexample: on a loop iteration with no pending frame the body
performs no tick evaluation at all — the state is unchanged and nothing is
emitted — even from a state in which the tick evaluation (here at time
100) would emit an Initial alert.  The escalation check at lines 128-160
sits inside `if ser.in_waiting > 0`. -/
theorem tick_skipped_without_frame :
    loopBody { session := sC1, current_time := some 0 } LoopInput.noData
        = Except.ok ({ session := sC1, current_time := some 0 }, []) ∧
    (tick sC1 100).2 =
      [{ tier := Tier.initial, elapsed_seconds := 100, timestamp := 100 }] :=
  ⟨rfl, rfl⟩

/-- C1 amended: the escalation (tick) evaluation runs only on iterations in
which a frame was read; any run of frameless iterations leaves the loop
state untouched and emits no alerts. -/
theorem tick_only_on_frames (st : LoopState) (inps : List LoopInput)
    (h : ∀ i ∈ inps, i = LoopInput.noData) :
    runLoop st inps = Except.ok (st, []) := by
  induction inps with
  | nil => rfl
  | cons i rest ih =>
    have hi := h i (by simp)
    subst hi
    have hrest : runLoop st rest = Except.ok (st, []) :=
      ih (fun j hj => h j (by simp [hj]))
    simp [runLoop, loopBody, hrest]

/-- Witness for the amended C1 on two consecutive frameless iterations. -/
theorem tick_only_on_frames_witness :
    (∀ i ∈ [LoopInput.noData, LoopInput.noData], i = LoopInput.noData) ∧
    runLoop { session := sC1, current_time := none }
        [LoopInput.noData, LoopInput.noData]
      = Except.ok ({ session := sC1, current_time := none }, []) :=
  ⟨by simp, tick_only_on_frames _ _ (by simp)⟩

/-! ## C2 — a malformed first line crashes the loop body -/

/-- C2: the code belies the spec's "malformed frames never raise".  If the
very first frame read is a line that does not start with the recognized
marker (here the partial frame `"BSS,1"`, typical when the serial port
opens mid-message), line 129 reads the local `current_time`, which has
never been assigned, and the loop body dies with `UnboundLocalError`
instead of silently ignoring the line. -/
theorem unrecognized_first_line_raises :
    loopBody { session := initSession 0, current_time := none }
        (LoopInput.line "BSS,1".data 5) = Except.error PyError.unboundLocal := rfl

/-! ## C8 — Initial-alert debounce -/

/-- A tick never re-emits an Initial alert once `initial_alarm_sent` is
set, and never clears the flag. -/
theorem tick_initial_debounce (s : MonitoringSession) (now : Int)
    (hi : s.initial_alarm_sent = true) :
    (tick s now).1.initial_alarm_sent = true ∧
    hasTier Tier.initial (tick s now).2 = false := by
  rw [tick_eq]
  split_ifs <;> simp_all [hasTier]

/-- Over any sequence of ticks, a set `initial_alarm_sent` flag stays set
and no Initial alert is emitted. -/
theorem runS_ticks_initial_debounce (ts : List Int) :
    ∀ s : MonitoringSession, s.initial_alarm_sent = true →
      hasTier Tier.initial (runS s (ts.map Event.tick)).2 = false ∧
      (runS s (ts.map Event.tick)).1.initial_alarm_sent = true := by
  induction ts with
  | nil => intro s hi; simpa [runS, hasTier]
  | cons t rest ih =>
    intro s hi
    obtain ⟨hi', hno⟩ := tick_initial_debounce s t hi
    obtain ⟨hrest, hflag⟩ := ih (tick s t).1 hi'
    refine ⟨?_, by simpa [runS, step] using hflag⟩
    simp only [List.map_cons, runS, step]
    rw [hasTier_append]
    simp [hno, hrest]

/-- C8: once the Initial alert has been sent, any number of further ticks
with no new signal and elapsed still above the initial threshold emits no
further Initial alert and leaves `initial_alarm_sent` set. -/
theorem initial_alert_idempotent (s : MonitoringSession) (ts : List Int)
    (_hp : s.presence_detected = true) (hi : s.initial_alarm_sent = true)
    (_he : ∀ t ∈ ts, t - s.last_movement_time > INITIAL_ALARM_THRESHOLD) :
    hasTier Tier.initial (runS s (ts.map Event.tick)).2 = false ∧
    (runS s (ts.map Event.tick)).1.initial_alarm_sent = true :=
  runS_ticks_initial_debounce ts s hi

/-- Witness for C8: two more ticks after the Initial alert was sent. -/
theorem initial_alert_idempotent_witness :
    (sAlarmed.presence_detected = true ∧ sAlarmed.initial_alarm_sent = true ∧
     ∀ t ∈ [100, 200], t - sAlarmed.last_movement_time > INITIAL_ALARM_THRESHOLD) ∧
    hasTier Tier.initial (runS sAlarmed ([100, 200].map Event.tick)).2 = false ∧
    (runS sAlarmed ([100, 200].map Event.tick)).1.initial_alarm_sent = true :=
  ⟨⟨rfl, rfl, by decide⟩,
   initial_alert_idempotent sAlarmed [100, 200] rfl rfl (by decide)⟩

/-! ## C10 — alarm flags are only set while presence is detected -/

/-- One step preserves the invariant "no presence implies no alarm
flags". -/
theorem step_flags_invariant (s : MonitoringSession) (e : Event)
    (h : s.presence_detected = false →
         s.initial_alarm_sent = false ∧ s.critical_alarm_sent = false) :
    (step s e).1.presence_detected = false →
      (step s e).1.initial_alarm_sent = false ∧
      (step s e).1.critical_alarm_sent = false := by
  intro hafter
  cases e with
  | tick now =>
    have hpres := (tick_preserves s now).1
    simp only [step] at hafter ⊢
    rw [hpres] at hafter
    rcases h hafter with ⟨h1, h2⟩
    rw [tick_eq]
    simp [hafter, h1, h2]
  | signal b now =>
    cases b with
    | true =>
      simp only [step, processSignal_true_eq] at hafter
      rw [(tick_preserves _ _).1] at hafter
      simp at hafter
    | false =>
      simp only [step, processSignal_false_eq] at hafter ⊢
      split_ifs at hafter ⊢ with hsp
      · rw [tick_eq]; simp
      · rw [(tick_preserves _ _).1] at hafter
        rcases h hafter with ⟨h1, h2⟩
        rw [tick_eq]
        simp [hafter, h1, h2]

/-- The invariant holds after any run from a state satisfying it. -/
theorem runS_flags_invariant (evs : List Event) :
    ∀ s : MonitoringSession,
      (s.presence_detected = false →
        s.initial_alarm_sent = false ∧ s.critical_alarm_sent = false) →
      ((runS s evs).1.presence_detected = false →
        (runS s evs).1.initial_alarm_sent = false ∧
        (runS s evs).1.critical_alarm_sent = false) := by
  induction evs with
  | nil => intro s h; simpa [runS]
  | cons e rest ih =>
    intro s h
    simpa [runS] using ih (step s e).1 (step_flags_invariant s e h)

/-- C10: in every state reachable from the initial session by processing
signals and ticks, `presence_detected = false` implies that both alarm
flags are false. -/
theorem reachable_flags_invariant (t0 : Int) (evs : List Event)
    (h : (runS (initSession t0) evs).1.presence_detected = false) :
    (runS (initSession t0) evs).1.initial_alarm_sent = false ∧
    (runS (initSession t0) evs).1.critical_alarm_sent = false :=
  runS_flags_invariant evs (initSession t0) (fun _ => ⟨rfl, rfl⟩) h

/-- Witness for C10: a short run that ends with presence absent. -/
theorem reachable_flags_invariant_witness :
    (runS (initSession 0) [Event.signal true 1, Event.signal false 2]).1.presence_detected
        = false ∧
    (runS (initSession 0) [Event.signal true 1, Event.signal false 2]).1.initial_alarm_sent
        = false ∧
    (runS (initSession 0) [Event.signal true 1, Event.signal false 2]).1.critical_alarm_sent
        = false :=
  ⟨by decide, reachable_flags_invariant 0 [Event.signal true 1, Event.signal false 2]
      (by decide)⟩

/-! ## C6 — absence resets the episode and suppresses all alerts -/

/-- While presence is not detected, any run of events containing no
presence=1 signal emits no alerts and leaves presence undetected. -/
theorem runS_silent_while_absent (evs : List Event) :
    ∀ s : MonitoringSession, s.presence_detected = false →
      noPresence1 evs = true →
      (runS s evs).2 = [] ∧ (runS s evs).1.presence_detected = false := by
  induction evs with
  | nil => intro s hp _; simp [runS, hp]
  | cons e rest ih =>
    intro s hp hno
    have hstep : step s e = (s, []) := by
      cases e with
      | tick now =>
        simp only [step]
        rw [tick_eq]
        simp [hp]
      | signal b now =>
        cases b with
        | true => simp [noPresence1] at hno
        | false =>
          simp only [step, processSignal_false_eq, hp]
          rw [tick_eq]
          simp [hp]
    have hno' : noPresence1 rest = true := by
      cases e with
      | tick now => simpa [noPresence1] using hno
      | signal b now =>
        cases b with
        | true => simp [noPresence1] at hno
        | false => simpa [noPresence1] using hno
    obtain ⟨h1, h2⟩ := ih s hp hno'
    simp [runS, hstep, h1, h2]

/-- C6: a presence=0 signal while presence was detected clears presence and
both alarm flags in that step (and that step emits nothing), and no alert
of either tier is emitted by any subsequent events until a presence=1
signal arrives. -/
theorem absence_resets (s : MonitoringSession) (now : Int) (evs : List Event)
    (hp : s.presence_detected = true) (hno : noPresence1 evs = true) :
    (step s (Event.signal false now)).1.presence_detected = false ∧
    (step s (Event.signal false now)).1.initial_alarm_sent = false ∧
    (step s (Event.signal false now)).1.critical_alarm_sent = false ∧
    (step s (Event.signal false now)).2 = [] ∧
    (runS (step s (Event.signal false now)).1 evs).2 = [] := by
  have hstep : step s (Event.signal false now) =
      ({ s with presence_detected := false
                initial_alarm_sent := false
                critical_alarm_sent := false }, []) := by
    simp only [step, processSignal_false_eq, hp]
    rw [tick_eq]
    simp
  rw [hstep]
  exact ⟨rfl, rfl, rfl, rfl, (runS_silent_while_absent evs _ rfl hno).1⟩

/-- Witness for C6: absence at t=10, then a tick and another absence
signal, with no alert ever emitted. -/
theorem absence_resets_witness :
    (sC1.presence_detected = true ∧
     noPresence1 [Event.tick 400, Event.signal false 500] = true) ∧
    (step sC1 (Event.signal false 10)).1.presence_detected = false ∧
    (step sC1 (Event.signal false 10)).1.initial_alarm_sent = false ∧
    (step sC1 (Event.signal false 10)).1.critical_alarm_sent = false ∧
    (step sC1 (Event.signal false 10)).2 = [] ∧
    (runS (step sC1 (Event.signal false 10)).1
        [Event.tick 400, Event.signal false 500]).2 = [] :=
  ⟨⟨rfl, by decide⟩, absence_resets sC1 10 _ rfl (by decide)⟩

/-! ## C3 — critical-alert cooldown and re-fire -/

/-- A tick at or before the end of the cooldown window cannot re-fire the
critical alert: the flag and `last_critical_alert_time` are unchanged and
no Critical alert is emitted. -/
theorem tick_critical_cooldown (s : MonitoringSession) (T t : Int)
    (hc : s.critical_alarm_sent = true) (hT : s.last_critical_alert_time = T)
    (ht : t ≤ T + CRITICAL_COOLDOWN) :
    (tick s t).1.critical_alarm_sent = true ∧
    (tick s t).1.last_critical_alert_time = T ∧
    hasTier Tier.critical (tick s t).2 = false := by
  rw [tick_eq]
  split_ifs <;> simp_all [hasTier] <;> omega

/-- Over any sequence of ticks all at or before `T + CRITICAL_COOLDOWN`, no
Critical alert is emitted, and the critical flag, the critical-alert time,
presence and the movement time are unchanged. -/
theorem runS_ticks_cooldown (ts : List Int) :
    ∀ (s : MonitoringSession) (T : Int), s.critical_alarm_sent = true →
      s.last_critical_alert_time = T →
      (∀ t ∈ ts, t ≤ T + CRITICAL_COOLDOWN) →
      hasTier Tier.critical (runS s (ts.map Event.tick)).2 = false ∧
      (runS s (ts.map Event.tick)).1.critical_alarm_sent = true ∧
      (runS s (ts.map Event.tick)).1.last_critical_alert_time = T ∧
      (runS s (ts.map Event.tick)).1.presence_detected = s.presence_detected ∧
      (runS s (ts.map Event.tick)).1.last_movement_time = s.last_movement_time := by
  induction ts with
  | nil => intro s T hc hT _; simp [runS, hasTier, hc, hT]
  | cons t rest ih =>
    intro s T hc hT hts
    obtain ⟨hc', hT', hno⟩ := tick_critical_cooldown s T t hc hT (hts t (by simp))
    obtain ⟨hpres, hlmt, _⟩ := tick_preserves s t
    obtain ⟨h1, h2, h3, h4, h5⟩ :=
      ih (tick s t).1 T hc' hT' (fun u hu => hts u (by simp [hu]))
    refine ⟨?_, by simpa [runS, step] using h2, by simpa [runS, step] using h3,
      ?_, ?_⟩
    · simp only [List.map_cons, runS, step]
      rw [hasTier_append]
      simp [hno, h1]
    · simp only [List.map_cons, runS, step] at h4 ⊢
      rw [h4, hpres]
    · simp only [List.map_cons, runS, step] at h5 ⊢
      rw [h5, hlmt]

/-- A tick after the cooldown has elapsed, with presence detected and
elapsed above the critical threshold, fires a Critical alert and updates
`last_critical_alert_time`. -/
theorem tick_critical_refire (s : MonitoringSession) (now : Int)
    (hp : s.presence_detected = true)
    (he : now - s.last_movement_time > NO_MOTION_THRESHOLD)
    (hcool : now - s.last_critical_alert_time > CRITICAL_COOLDOWN) :
    hasTier Tier.critical (tick s now).2 = true ∧
    (tick s now).1.last_critical_alert_time = now := by
  rw [tick_eq]
  split_ifs <;> simp_all [hasTier]

/-- C3: after a Critical alert fired at time `T` (flag set,
`last_critical_alert_time = T`), ticks at or before `T + CRITICAL_COOLDOWN`
never emit a second Critical alert, however large elapsed is; and a
subsequent tick at `now` with `now - T > CRITICAL_COOLDOWN`, presence still
detected and elapsed still above the critical threshold does fire a second
Critical alert and sets `last_critical_alert_time = now`. -/
theorem critical_cooldown (s : MonitoringSession) (T now : Int) (ts : List Int)
    (hc : s.critical_alarm_sent = true) (hT : s.last_critical_alert_time = T)
    (hts : ∀ t ∈ ts, t ≤ T + CRITICAL_COOLDOWN) :
    hasTier Tier.critical (runS s (ts.map Event.tick)).2 = false ∧
    (now - T > CRITICAL_COOLDOWN → s.presence_detected = true →
      now - s.last_movement_time > NO_MOTION_THRESHOLD →
      hasTier Tier.critical (tick (runS s (ts.map Event.tick)).1 now).2 = true ∧
      (tick (runS s (ts.map Event.tick)).1 now).1.last_critical_alert_time = now) := by
  obtain ⟨h1, _, h3, h4, h5⟩ := runS_ticks_cooldown ts s T hc hT hts
  refine ⟨h1, fun hcool hp he => ?_⟩
  exact tick_critical_refire _ now (by rw [h4]; exact hp) (by rw [h5]; exact he)
    (by rw [h3]; exact hcool)

/-- Witness for C3, the spec's Scenario C: Critical fired at 301; a tick at
899 emits no second Critical alert; the tick at 902 does, and records 902
as the new critical-alert time. -/
theorem critical_cooldown_witness :
    (sCrit.critical_alarm_sent = true ∧ sCrit.last_critical_alert_time = 301 ∧
     (∀ t ∈ [(899 : Int)], t ≤ 301 + CRITICAL_COOLDOWN)) ∧
    hasTier Tier.critical (runS sCrit ([899].map Event.tick)).2 = false ∧
    hasTier Tier.critical (tick (runS sCrit ([899].map Event.tick)).1 902).2 = true ∧
    (tick (runS sCrit ([899].map Event.tick)).1 902).1.last_critical_alert_time = 902 :=
  ⟨⟨rfl, rfl, by decide⟩,
   (critical_cooldown sCrit 301 902 [899] rfl rfl (by decide)).1,
   (critical_cooldown sCrit 301 902 [899] rfl rfl (by decide)).2
     (by decide) rfl (by decide)⟩

/-! ## C4 — `last_movement_time` is monotone and tracks presence=1 signals -/

/-- Running an appended event list runs the two parts in sequence. -/
theorem runS_append (s : MonitoringSession) (l1 l2 : List Event) :
    runS s (l1 ++ l2)
      = ((runS (runS s l1).1 l2).1,
         (runS s l1).2 ++ (runS (runS s l1).1 l2).2) := by
  induction l1 generalizing s with
  | nil => simp [runS]
  | cons e rest ih => simp [runS, ih]

/-- Chronology splits across an append, the second part starting at the
last time of the first. -/
theorem chronoFrom_append (t : Int) (l1 l2 : List Event) :
    chronoFrom t (l1 ++ l2)
      = (chronoFrom t l1 && chronoFrom (lastTime t l1) l2) := by
  induction l1 generalizing t with
  | nil => simp [chronoFrom, lastTime]
  | cons e rest ih => simp [chronoFrom, lastTime, ih, Bool.and_assoc]

/-- Along any chronological run from a state whose movement time is at most
the start time, the final movement time is the timestamp of the most recent
presence=1 signal (or unchanged if there is none), never decreases, and
never exceeds the last event time. -/
theorem runS_lmt (evs : List Event) :
    ∀ (s : MonitoringSession) (t : Int), s.last_movement_time ≤ t →
      chronoFrom t evs = true →
      (runS s evs).1.last_movement_time
          = (lastMovementUpdate evs).getD s.last_movement_time ∧
      s.last_movement_time ≤ (runS s evs).1.last_movement_time ∧
      (runS s evs).1.last_movement_time ≤ lastTime t evs := by
  induction evs with
  | nil => intro s t h _; simp [runS, lastMovementUpdate, lastTime, h]
  | cons e rest ih =>
    intro s t h hc
    simp only [chronoFrom, Bool.and_eq_true, decide_eq_true_eq] at hc
    obtain ⟨hte, hcr⟩ := hc
    cases e with
    | tick now =>
      have hlmt : (step s (Event.tick now)).1.last_movement_time
          = s.last_movement_time := (tick_preserves s now).2.1
      obtain ⟨h1, h2, h3⟩ := ih (step s (Event.tick now)).1 now
        (by rw [hlmt]; exact le_trans h hte) hcr
      refine ⟨?_, ?_, ?_⟩
      · simp only [runS, lastMovementUpdate]
        rw [h1, hlmt]
      · simp only [runS]
        rw [← hlmt]
        exact h2
      · simp only [runS, lastTime, eventTime]
        exact h3
    | signal b now =>
      cases b with
      | true =>
        have hs' : (step s (Event.signal true now)).1.last_movement_time = now := by
          simp only [step, processSignal_true_eq]
          rw [(tick_preserves _ _).2.1]
        obtain ⟨h1, h2, h3⟩ := ih (step s (Event.signal true now)).1 now
          (le_of_eq hs') hcr
        refine ⟨?_, ?_, ?_⟩
        · simp only [runS, lastMovementUpdate]
          rw [h1, hs']
          simp
        · simp only [runS]
          calc s.last_movement_time ≤ now := le_trans h hte
            _ = (step s (Event.signal true now)).1.last_movement_time := hs'.symm
            _ ≤ _ := h2
        · simp only [runS, lastTime, eventTime]
          exact h3
      | false =>
        have hlmt : (step s (Event.signal false now)).1.last_movement_time
            = s.last_movement_time := by
          simp only [step]
          rw [(tick_preserves _ _).2.1, processSignal_false_eq]
          split_ifs <;> rfl
        obtain ⟨h1, h2, h3⟩ := ih (step s (Event.signal false now)).1 now
          (by rw [hlmt]; exact le_trans h hte) hcr
        refine ⟨?_, ?_, ?_⟩
        · simp only [runS, lastMovementUpdate]
          rw [h1, hlmt]
        · simp only [runS]
          rw [← hlmt]
          exact h2
        · simp only [runS, lastTime, eventTime]
          exact h3

/-- C4: over any chronological run from the initial session,
`last_movement_time` ends at the timestamp of the most recent presence=1
signal (or stays at the start time if there was none — it is only ever
updated by presence=1 signals), and it is non-decreasing: at every prefix
of the run it is at most its final value. -/
theorem movement_time_monotone (t0 : Int) (evs : List Event)
    (h : chronoFrom t0 evs = true) :
    (runS (initSession t0) evs).1.last_movement_time
        = (lastMovementUpdate evs).getD t0 ∧
    (∀ l1 l2 : List Event, evs = l1 ++ l2 →
      (runS (initSession t0) l1).1.last_movement_time ≤
        (runS (initSession t0) evs).1.last_movement_time) := by
  have hinit : (initSession t0).last_movement_time = t0 := rfl
  refine ⟨?_, ?_⟩
  · have h1 := (runS_lmt evs (initSession t0) t0 (le_of_eq hinit) h).1
    rwa [hinit] at h1
  · intro l1 l2 hsplit
    subst hsplit
    rw [chronoFrom_append, Bool.and_eq_true] at h
    have hm := runS_lmt l1 (initSession t0) t0 (le_of_eq hinit) h.1
    have hfin := runS_lmt l2 (runS (initSession t0) l1).1 (lastTime t0 l1)
      hm.2.2 h.2
    rw [runS_append]
    exact hfin.2.1

/-- Witness for C4: a presence=1 signal at t=5 then a tick at t=70; the
final movement time is 5, the timestamp of the presence signal. -/
theorem movement_time_monotone_witness :
    chronoFrom 0 [Event.signal true 5, Event.tick 70] = true ∧
    (runS (initSession 0) [Event.signal true 5, Event.tick 70]).1.last_movement_time
      = (lastMovementUpdate [Event.signal true 5, Event.tick 70]).getD 0 :=
  ⟨by decide, (movement_time_monotone 0 _ (by decide)).1⟩

/-! ## C7 — what the parser stage actually recognizes -/

/-- The first field of a split is empty exactly for the empty line or a
line starting with a comma. -/
theorem splitOnComma_headD_eq_nil (l : List Char) :
    ((splitOnComma l).headD [] = []) ↔ (l = [] ∨ ∃ r, l = ',' :: r) := by
  cases l with
  | nil => simp [splitOnComma]
  | cons c cs =>
    by_cases hc : c = ','
    · subst hc
      simp [splitOnComma]
    · cases h : splitOnComma cs with
      | nil => exact absurd h (splitOnComma_ne_nil cs)
      | cons f r =>
        simp only [splitOnComma, hc, if_false, h]
        simp [hc]

/-- The first field of a split is the single non-comma character `d`
exactly when the line is `[d]` or starts with `d` followed by a comma. -/
theorem splitOnComma_headD_eq_single (d : Char) (hd : ¬ d = ',') (l : List Char) :
    ((splitOnComma l).headD [] = [d]) ↔ (l = [d] ∨ ∃ r, l = d :: ',' :: r) := by
  cases l with
  | nil => simp [splitOnComma]
  | cons c cs =>
    by_cases hc : c = ','
    · subst hc
      simp only [splitOnComma, if_pos rfl, List.headD_cons]
      constructor
      · intro heq; exact absurd heq (by simp)
      · rintro (heq | ⟨r, heq⟩) <;>
          exact absurd (List.cons_eq_cons.mp heq).1 (fun he => hd he.symm)
    · cases h : splitOnComma cs with
      | nil => exact absurd h (splitOnComma_ne_nil cs)
      | cons f r =>
        simp only [splitOnComma, hc, if_false, h, List.headD_cons]
        have hf : f = (splitOnComma cs).headD [] := by rw [h]; rfl
        constructor
        · rintro heq
          have hcd : c = d := by simpa using congrArg (·.headD ' ') heq
          have hfnil : f = [] := by simpa [hcd] using heq
          subst hcd
          rcases (splitOnComma_headD_eq_nil cs).1 (hf ▸ hfnil) with hnil | ⟨r', hr'⟩
          · exact Or.inl (by rw [hnil])
          · exact Or.inr ⟨r', by rw [hr']⟩
        · rintro (heq | ⟨r', hr'⟩)
          · have hcd : c = d ∧ cs = [] := by simpa using heq
            obtain ⟨hcd, hcs⟩ := hcd
            subst hcd; subst hcs
            simp [splitOnComma] at h
            simp [← h.1]
          · have hcd : c = d ∧ cs = ',' :: r' := by simpa using hr'
            obtain ⟨hcd, hcs⟩ := hcd
            subst hcd; subst hcs
            have hfe : f = [] := by
              rw [hf]
              exact (splitOnComma_headD_eq_nil _).2 (Or.inr ⟨r', rfl⟩)
            simp [hfe]

/-- Indexing at 0 with default `[]` is `headD`. -/
theorem getD_zero_eq_headD (l : List (List Char)) : l.getD 0 [] = l.headD [] := by
  cases l <;> rfl

/-- The status decision chain yields `some true` exactly on field `"1"`. -/
theorem parse_chain_true (a : List Char) :
    ((if a = ['1'] then some true else if a = ['0'] then some false else none)
        = some true) ↔ a = ['1'] := by
  split_ifs with h1 h2 <;> simp_all

/-- The status decision chain yields `some false` exactly on field `"0"`. -/
theorem parse_chain_false (a : List Char) :
    ((if a = ['1'] then some true else if a = ['0'] then some false else none)
        = some false) ↔ a = ['0'] := by
  split_ifs with h1 h2 <;> simp_all

/-- On a line starting with the marker, the parser decides on the first
field of the remainder. -/
theorem parseLine_marker_field (rest : List Char) :
    parseLine (marker ++ rest)
      = (if (splitOnComma rest).headD [] = ['1'] then some true
         else if (splitOnComma rest).headD [] = ['0'] then some false
         else none) := by
  have hpre : marker.isPrefixOf (marker ++ rest) = true :=
    List.isPrefixOf_iff_prefix.mpr ⟨rest, rfl⟩
  simp only [parseLine, hpre, if_true]
  have h1 : splitOnComma (marker ++ rest) = "SJYBSS".data :: splitOnComma rest := rfl
  rw [h1]
  have h2 : ("SJYBSS".data :: splitOnComma rest).getD 1 ([] : List Char)
      = (splitOnComma rest).getD 0 [] := rfl
  rw [h2, getD_zero_eq_headD]

/-- C7 counterexample: the line `"SJYBSS,1,0"` does not have the
recognized form `"<MARKER>,<status>"` — its trailing comma-separated token
is `"0"`, not `"1"` — yet the parser yields present=true, because the code
reads `data.split(",")[1]`, the field immediately after the marker. -/
theorem parser_trailing_token_counterexample :
    parseLine "SJYBSS,1,0".data = some true ∧
    specParse "SJYBSS,1,0".data = none ∧
    (splitOnComma "SJYBSS,1,0".data).getLastD [] = ['0'] := by
  decide

/-- C7 amended: the parser yields present=true exactly when the line
starts with `"SJYBSS,"` and the comma-separated field immediately after
the marker is `"1"` — that is, when the line is `"SJYBSS,1"` or begins
with `"SJYBSS,1,"` — and present=false likewise with `"0"`; every other
line is ignored. -/
theorem parser_second_field_characterization (data : List Char) :
    (parseLine data = some true ↔
      (data = "SJYBSS,1".data ∨ ∃ r, data = "SJYBSS,1,".data ++ r)) ∧
    (parseLine data = some false ↔
      (data = "SJYBSS,0".data ∨ ∃ r, data = "SJYBSS,0,".data ++ r)) := by
  by_cases hpre : marker.isPrefixOf data = true
  · obtain ⟨rest, hrest⟩ := List.isPrefixOf_iff_prefix.mp hpre
    subst hrest
    rw [parseLine_marker_field rest]
    constructor
    · rw [parse_chain_true, splitOnComma_headD_eq_single '1' (by decide) rest]
      apply or_congr
      · constructor
        · intro h; subst h; exact rfl
        · intro h; exact List.append_cancel_left h
      · apply exists_congr; intro r
        constructor
        · intro h; subst h; exact rfl
        · intro h; exact List.append_cancel_left h
    · rw [parse_chain_false, splitOnComma_headD_eq_single '0' (by decide) rest]
      apply or_congr
      · constructor
        · intro h; subst h; exact rfl
        · intro h; exact List.append_cancel_left h
      · apply exists_congr; intro r
        constructor
        · intro h; subst h; exact rfl
        · intro h; exact List.append_cancel_left h
  · have hnone : parseLine data = none := by simp [parseLine, hpre]
    rw [hnone]
    constructor
    · constructor
      · intro h; simp at h
      · rintro (h | ⟨r, h⟩) <;> subst h
        · exact absurd (by decide) hpre
        · exact absurd (List.isPrefixOf_iff_prefix.mpr ⟨'1' :: ',' :: r, rfl⟩) hpre
    · constructor
      · intro h; simp at h
      · rintro (h | ⟨r, h⟩) <;> subst h
        · exact absurd (by decide) hpre
        · exact absurd (List.isPrefixOf_iff_prefix.mpr ⟨'0' :: ',' :: r, rfl⟩) hpre

end Radar
